import Mathlib

/-!
Shallow embedding of the Game Boy cartridge ROM header reader
(src/rom.rs, src/util.rs, src/main.rs): header field extraction, header
and global checksum validation, logo comparison, and UTF-8 text decoding.
Bytes are modelled as natural numbers; 16-bit wrapping arithmetic is
integer arithmetic reduced modulo 65536 (the lossless u8 to u16 casts of
the source are identities here); a Rust panic, which aborts the process,
is modelled by a distinguished result constructor, and an out-of-bounds
index, which also panics, by an Option-valued result.
-/

set_option maxRecDepth 100000

namespace RomInfo

/-- Header address constant from src/rom.rs line 16. -/
def ENTRY_POINT_ADDR : Nat := 0x0100

/-- Header address constant from src/rom.rs line 17. -/
def NINTENDO_LOGO_ADDR : Nat := 0x0104

/-- Header address constant from src/rom.rs line 18. -/
def TITLE_ADDR : Nat := 0x0134

/-- Header address constant from src/rom.rs line 19. -/
def MANUFACTURER_CODE_ADDR : Nat := 0x013F

/-- Header address constant from src/rom.rs line 20. -/
def CGB_FLAG_ADDR : Nat := 0x0143

/-- Header address constant from src/rom.rs line 21. -/
def NEW_LICENSEE_CODE_ADDR : Nat := 0x0144

/-- Header address constant from src/rom.rs line 22. -/
def SGB_FLAG_ADDR : Nat := 0x0146

/-- Header address constant from src/rom.rs line 23. -/
def CARTRIDGE_TYPE_ADDR : Nat := 0x0147

/-- Header address constant from src/rom.rs line 24. -/
def ROM_SIZE_ADDR : Nat := 0x0148

/-- Header address constant from src/rom.rs line 25. -/
def RAM_SIZE_ADDR : Nat := 0x0149

/-- Header address constant from src/rom.rs line 26. -/
def DESTINATION_CODE_ADDR : Nat := 0x014A

/-- Header address constant from src/rom.rs line 27. -/
def OLD_LICENSEE_CODE_ADDR : Nat := 0x014B

/-- Header address constant from src/rom.rs line 28. -/
def MASK_ROM_VERSION_NUMBER_ADDR : Nat := 0x014C

/-- Header address constant from src/rom.rs line 29. -/
def HEADER_CHECKSUM_ADDR : Nat := 0x014D

/-- Header address constant from src/rom.rs line 30. -/
def GLOBAL_CHECKSUM_ADDR : Nat := 0x014E

/-- Error type of ROM loading, from src/rom.rs lines 32 to 39. The payload
of the IoError variant (an operating-system error value) is irrelevant to
every claim and omitted. -/
inductive RomLoadError where
  | IoError
  | FormatError
  deriving DecidableEq

/-- The Rom structure of src/rom.rs lines 47 to 65. Fixed-size byte arrays
and vectors are both lists of bytes; single bytes and the 16-bit global
checksum are naturals. -/
structure Rom where
  entry_point : List Nat
  nintendo_logo : List Nat
  title : List Nat
  manufacturer_code : List Nat
  cgb_flag : Nat
  new_licensee_code : List Nat
  sgb_flag : Nat
  cartridge_type : Nat
  rom_size_flag : Nat
  ram_size_flag : Nat
  destination_code : Nat
  old_licensee_code : Nat
  mask_rom_version_number : Nat
  header_checksum : Nat
  global_checksum : Nat
  rom_data : List Nat
  deriving DecidableEq

/-- Modelled from the spec: util.get_subarray_of_vector is called by
Rom.from_file but its definition is absent from the provided util.rs.
Per the spec, each multi-byte field is sliced from the buffer at its
documented offset and length. The output-array length of the source
becomes an explicit argument. -/
def get_subarray_of_vector (buf : List Nat) (addr len : Nat) : List Nat :=
  (buf.drop addr).take len

/-- Embedding of Rom.from_file (src/rom.rs lines 81 to 125) after the file
contents have been read into a byte buffer: buffers too short to hold the
whole header are rejected with FormatError, otherwise every field is
sliced out at its address constant. The single-byte indexed reads use
getD with default 0; the length check makes every such index in bounds,
so the default is never consulted. -/
def from_file (buf : List Nat) : Except RomLoadError Rom :=
  if buf.length ≤ GLOBAL_CHECKSUM_ADDR + 1 then
    Except.error RomLoadError.FormatError
  else
    Except.ok
      { entry_point := get_subarray_of_vector buf ENTRY_POINT_ADDR 4,
        nintendo_logo := get_subarray_of_vector buf NINTENDO_LOGO_ADDR 48,
        title := get_subarray_of_vector buf TITLE_ADDR 11,
        manufacturer_code := get_subarray_of_vector buf MANUFACTURER_CODE_ADDR 4,
        cgb_flag := buf.getD CGB_FLAG_ADDR 0,
        new_licensee_code := [buf.getD NEW_LICENSEE_CODE_ADDR 0, buf.getD (NEW_LICENSEE_CODE_ADDR + 1) 0],
        sgb_flag := buf.getD SGB_FLAG_ADDR 0,
        cartridge_type := buf.getD CARTRIDGE_TYPE_ADDR 0,
        rom_size_flag := buf.getD ROM_SIZE_ADDR 0,
        ram_size_flag := buf.getD RAM_SIZE_ADDR 0,
        destination_code := buf.getD DESTINATION_CODE_ADDR 0,
        old_licensee_code := buf.getD OLD_LICENSEE_CODE_ADDR 0,
        mask_rom_version_number := buf.getD MASK_ROM_VERSION_NUMBER_ADDR 0,
        header_checksum := buf.getD HEADER_CHECKSUM_ADDR 0,
        global_checksum := (buf.getD GLOBAL_CHECKSUM_ADDR 0) <<< 8 ||| buf.getD (GLOBAL_CHECKSUM_ADDR + 1) 0,
        rom_data := buf }

/-- One iteration of the header checksum loop of src/rom.rs line 147:
the 16-bit wrapping value of acc - b - 1. -/
def checksum_step (acc b : Nat) : Nat :=
  (((acc : Int) - (b : Int) - 1) % 65536).toNat

/-- Embedding of Rom.is_header_checksum_valid (src/rom.rs lines 143 to
151). The loop indexes rom_data at 0x0134..0x014D; indexing out of
bounds is a Rust panic, modelled by the none result. The final
comparison truncates the 16-bit accumulator to 8 bits. -/
def is_header_checksum_valid? (r : Rom) : Option Bool :=
  ((List.range' TITLE_ADDR (HEADER_CHECKSUM_ADDR - TITLE_ADDR)).foldlM
      (fun acc i => (r.rom_data.get? i).map (fun b => checksum_step acc b)) 0).map
    (fun acc => (acc % 256) == r.header_checksum)

/-- Embedding of Rom.is_global_checksum_valid (src/rom.rs lines 154 to
164): 16-bit wrapping sum of every byte of rom_data whose index is not
0x014E or 0x014F, compared with the stored global_checksum field. -/
def is_global_checksum_valid (r : Rom) : Bool :=
  (r.rom_data.enum.foldl
      (fun acc p =>
        if p.1 != GLOBAL_CHECKSUM_ADDR && p.1 != GLOBAL_CHECKSUM_ADDR + 1 then
          (acc + p.2) % 65536
        else acc)
      0) == r.global_checksum

/-- Result of a text-decoding call: ok with the decoded bytes, or aborted,
which models the process abort the source raises through the Rust panic
macro on invalid UTF-8 (src/util.rs line 28). -/
inductive StrResult where
  | ok (bytes : List Nat)
  | aborted
  deriving DecidableEq

/-- Whether a byte is a valid UTF-8 continuation byte. -/
def utf8Cont (b : Nat) : Bool := 0x80 ≤ b && b ≤ 0xBF

/-- UTF-8 validity of a byte sequence, the check performed by the standard
library function str::from_utf8 that src/util.rs calls: ASCII, 2-, 3- and
4-byte sequences with the standard continuation ranges, rejecting
overlong forms, surrogates and code points above 0x10FFFF. -/
def validUtf8 : List Nat → Bool
  | [] => true
  | b :: rest =>
    if b ≤ 0x7F then validUtf8 rest
    else if 0xC2 ≤ b && b ≤ 0xDF then
      match rest with
      | b1 :: rest2 => utf8Cont b1 && validUtf8 rest2
      | [] => false
    else if b = 0xE0 then
      match rest with
      | b1 :: b2 :: rest2 => (0xA0 ≤ b1 && b1 ≤ 0xBF) && utf8Cont b2 && validUtf8 rest2
      | _ => false
    else if (0xE1 ≤ b && b ≤ 0xEC) || b = 0xEE || b = 0xEF then
      match rest with
      | b1 :: b2 :: rest2 => utf8Cont b1 && utf8Cont b2 && validUtf8 rest2
      | _ => false
    else if b = 0xED then
      match rest with
      | b1 :: b2 :: rest2 => (0x80 ≤ b1 && b1 ≤ 0x9F) && utf8Cont b2 && validUtf8 rest2
      | _ => false
    else if b = 0xF0 then
      match rest with
      | b1 :: b2 :: b3 :: rest2 => (0x90 ≤ b1 && b1 ≤ 0xBF) && utf8Cont b2 && utf8Cont b3 && validUtf8 rest2
      | _ => false
    else if 0xF1 ≤ b && b ≤ 0xF3 then
      match rest with
      | b1 :: b2 :: b3 :: rest2 => utf8Cont b1 && utf8Cont b2 && utf8Cont b3 && validUtf8 rest2
      | _ => false
    else if b = 0xF4 then
      match rest with
      | b1 :: b2 :: b3 :: rest2 => (0x80 ≤ b1 && b1 ≤ 0x8F) && utf8Cont b2 && utf8Cont b3 && validUtf8 rest2
      | _ => false
    else false

/-- Embedding of util.bytes_to_utf8_string (src/util.rs lines 24 to 30):
yields the decoded string, identified with its byte sequence, on valid
UTF-8, and aborts the process through the Rust panic macro otherwise. -/
def bytes_to_utf8_string (bytes : List Nat) : StrResult :=
  if validUtf8 bytes then StrResult.ok bytes else StrResult.aborted

/-- Embedding of Rom.get_title_string (src/rom.rs lines 127 to 130). -/
def get_title_string (r : Rom) : StrResult :=
  bytes_to_utf8_string r.title

/-- Embedding of Rom.get_manufacturer_code_string (src/rom.rs lines 132
to 135). -/
def get_manufacturer_code_string (r : Rom) : StrResult :=
  bytes_to_utf8_string r.manufacturer_code

/-- Embedding of Rom.get_new_licensee_code_string (src/rom.rs lines 137
to 140). -/
def get_new_licensee_code_string (r : Rom) : StrResult :=
  bytes_to_utf8_string r.new_licensee_code

/-- Modelled from the spec: the compiled-in 48-byte reference bitmap of
the LogoValidator is absent from the provided sources; the bytes are the
canonical Game Boy boot logo bitmap the spec glossary refers to. -/
def NINTENDO_LOGO_REFERENCE : List Nat :=
  [0xCE, 0xED, 0x66, 0x66, 0xCC, 0x0D, 0x00, 0x0B, 0x03, 0x73, 0x00, 0x83,
   0x00, 0x0C, 0x00, 0x0D, 0x00, 0x08, 0x11, 0x1F, 0x88, 0x89, 0x00, 0x0E,
   0xDC, 0xCC, 0x6E, 0xE6, 0xDD, 0xDD, 0xD9, 0x99, 0xBB, 0xBB, 0x67, 0x63,
   0x6E, 0x0E, 0xEC, 0xCC, 0xDD, 0xDC, 0x99, 0x9F, 0xBB, 0xB9, 0x33, 0x3E]

/-- Modelled from the spec: LogoValidator.is_logo_valid is absent from the
provided sources; per the spec it is an exact, order-preserving byte
equality between the nintendo_logo field and the reference constant. -/
def is_logo_valid (r : Rom) : Bool :=
  r.nintendo_logo == NINTENDO_LOGO_REFERENCE

/-- The header checksum formula exactly as the specification states it: a
16-bit wrapping accumulator starting at 0, decremented by b + 1 for each
byte b in the range 0x0134..0x014D of the data, then truncated to 8
bits. -/
def spec_header_checksum (data : List Nat) : Nat :=
  (((data.drop 0x0134).take (0x014D - 0x0134)).foldl
      (fun (acc b : Nat) => (((acc : Int) - ((b : Int) + 1)) % 65536).toNat) 0) % 256

/-- The global checksum sum exactly as the specification states it: the
16-bit wrapping sum of every byte of the data except the bytes at indices
0x014E and 0x014F. -/
def spec_global_sum (data : List Nat) : Nat :=
  (data.enum.filter (fun p => p.1 != 0x014E && p.1 != 0x014F)).foldl
    (fun acc p => (acc + p.2) % 65536) 0

/-- Big-endian 16-bit value assembled from the two stored global checksum
bytes, high byte at the lower offset, as the specification states it. -/
def spec_global_stored (data : List Nat) : Nat :=
  (data.getD 0x014E 0) <<< 8 ||| data.getD 0x014F 0

/-- A 336-byte buffer of zero bytes except that the header checksum byte
at offset 0x014D holds 0xE7, the value the header checksum formula
produces on the all-zero range 0x0134..0x014D. -/
def bufZero : List Nat :=
  List.replicate 333 0 ++ [0xE7, 0, 0]

/-- The Rom value that from_file produces on bufZero. -/
def romZero : Rom :=
  { entry_point := List.replicate 4 0,
    nintendo_logo := List.replicate 48 0,
    title := List.replicate 11 0,
    manufacturer_code := List.replicate 4 0,
    cgb_flag := 0,
    new_licensee_code := [0, 0],
    sgb_flag := 0,
    cartridge_type := 0,
    rom_size_flag := 0,
    ram_size_flag := 0,
    destination_code := 0,
    old_licensee_code := 0,
    mask_rom_version_number := 0,
    header_checksum := 0xE7,
    global_checksum := 0,
    rom_data := bufZero }

/-- A Rom value with 336 zero bytes of rom_data but a stored
global_checksum field of 1, a value no parse would produce; it separates
the stored field from the bytes retained in rom_data. -/
def romBad : Rom :=
  { entry_point := List.replicate 4 0,
    nintendo_logo := List.replicate 48 0,
    title := List.replicate 11 0,
    manufacturer_code := List.replicate 4 0,
    cgb_flag := 0,
    new_licensee_code := [0, 0],
    sgb_flag := 0,
    cartridge_type := 0,
    rom_size_flag := 0,
    ram_size_flag := 0,
    destination_code := 0,
    old_licensee_code := 0,
    mask_rom_version_number := 0,
    header_checksum := 0,
    global_checksum := 1,
    rom_data := List.replicate 336 0 }

/-- A Rom value whose manufacturer_code bytes are not valid UTF-8: 0xFF
can never occur in a UTF-8 encoded string. -/
def romFF : Rom :=
  { entry_point := List.replicate 4 0,
    nintendo_logo := List.replicate 48 0,
    title := List.replicate 11 0,
    manufacturer_code := [0xFF, 0x30, 0x30, 0x30],
    cgb_flag := 0,
    new_licensee_code := [0, 0],
    sgb_flag := 0,
    cartridge_type := 0,
    rom_size_flag := 0,
    ram_size_flag := 0,
    destination_code := 0,
    old_licensee_code := 0,
    mask_rom_version_number := 0,
    header_checksum := 0,
    global_checksum := 0,
    rom_data := List.replicate 336 0 }

/-- A monadic fold over a range of indexed reads equals the plain fold
over the corresponding slice whenever the whole range is in bounds. -/
theorem foldlM_get?_slice (f : Nat → Nat → Nat) :
    ∀ (n a acc : Nat) (l : List Nat), a + n ≤ l.length →
      (List.range' a n).foldlM (fun acc i => (l.get? i).map (fun b => f acc b)) acc
        = some (((l.drop a).take n).foldl f acc) := by
  intro n
  induction n with
  | zero =>
    intro a acc l h
    simp
  | succ n ih =>
    intro a acc l h
    have ha : a < l.length := by omega
    rw [List.range'_succ, List.foldlM_cons]
    rw [List.get?_eq_getElem?, List.getElem?_eq_getElem ha]
    simp only [Option.map_some', Option.bind_eq_bind, Option.some_bind]
    rw [ih (a + 1) (f acc l[a]) l (by omega)]
    rw [List.drop_eq_getElem_cons ha, List.take_succ_cons, List.foldl_cons]

/-- On a rom_data long enough to contain the checksummed range, the header
checksum loop never reads out of bounds and reduces to a fold over the
slice 0x0134..0x014D. -/
theorem is_header_checksum_valid?_eq (r : Rom) (h : HEADER_CHECKSUM_ADDR ≤ r.rom_data.length) :
    is_header_checksum_valid? r =
      some (((((r.rom_data.drop TITLE_ADDR).take (HEADER_CHECKSUM_ADDR - TITLE_ADDR)).foldl
          checksum_step 0) % 256) == r.header_checksum) := by
  unfold is_header_checksum_valid?
  rw [foldlM_get?_slice checksum_step (HEADER_CHECKSUM_ADDR - TITLE_ADDR) TITLE_ADDR 0 r.rom_data
    (by simp only [TITLE_ADDR, HEADER_CHECKSUM_ADDR] at h ⊢; omega)]
  simp

/-- The formula of the specification computes the same slice fold as the
implementation step function. -/
theorem spec_header_checksum_eq (data : List Nat) :
    spec_header_checksum data =
      (((data.drop TITLE_ADDR).take (HEADER_CHECKSUM_ADDR - TITLE_ADDR)).foldl
          checksum_step 0) % 256 := by
  have hstep : (fun (acc b : Nat) => (((acc : Int) - ((b : Int) + 1)) % 65536).toNat)
      = checksum_step := by
    funext acc b
    unfold checksum_step
    rw [Int.sub_sub]
  unfold spec_header_checksum TITLE_ADDR HEADER_CHECKSUM_ADDR
  rw [hstep]

/-- Folding over a filtered list is folding over the whole list skipping
the elements the predicate rejects. -/
theorem foldl_filter_if (p : Nat × Nat → Bool) (f : Nat → Nat × Nat → Nat) :
    ∀ (l : List (Nat × Nat)) (acc : Nat),
      (l.filter p).foldl f acc = l.foldl (fun acc x => if p x then f acc x else acc) acc := by
  intro l
  induction l with
  | nil => intro acc; rfl
  | cons x xs ih =>
    intro acc
    by_cases hp : p x
    · simp only [List.filter_cons, hp, if_pos, List.foldl_cons, ih]
    · simp only [List.filter_cons, hp, List.foldl_cons, Bool.false_eq_true, if_false, ih]

/-- Every field a successful parse stores equals the documented byte range
of the input buffer. -/
theorem from_file_fields (buf : List Nat) (r : Rom) (h : from_file buf = Except.ok r) :
    r.entry_point = (buf.drop 0x0100).take 4 ∧
    r.nintendo_logo = (buf.drop 0x0104).take 48 ∧
    r.title = (buf.drop 0x0134).take 11 ∧
    r.manufacturer_code = (buf.drop 0x013F).take 4 ∧
    r.cgb_flag = buf.getD 0x0143 0 ∧
    r.new_licensee_code = [buf.getD 0x0144 0, buf.getD 0x0145 0] ∧
    r.sgb_flag = buf.getD 0x0146 0 ∧
    r.cartridge_type = buf.getD 0x0147 0 ∧
    r.rom_size_flag = buf.getD 0x0148 0 ∧
    r.ram_size_flag = buf.getD 0x0149 0 ∧
    r.destination_code = buf.getD 0x014A 0 ∧
    r.old_licensee_code = buf.getD 0x014B 0 ∧
    r.mask_rom_version_number = buf.getD 0x014C 0 ∧
    r.header_checksum = buf.getD 0x014D 0 ∧
    r.global_checksum = (buf.getD 0x014E 0) <<< 8 ||| buf.getD 0x014F 0 ∧
    r.rom_data = buf := by
  unfold from_file at h
  by_cases hlen : buf.length ≤ GLOBAL_CHECKSUM_ADDR + 1
  · rw [if_pos hlen] at h
    exact absurd h (by simp)
  · rw [if_neg hlen] at h
    have hr := Except.ok.inj h
    subst hr
    exact ⟨rfl, rfl, rfl, rfl, rfl, rfl, rfl, rfl, rfl, rfl, rfl, rfl, rfl, rfl, rfl, rfl⟩

/-- A buffer longer than 0x014F passes the length check and parses. -/
theorem from_file_isOk (buf : List Nat) (h : 0x014F < buf.length) :
    ∃ r, from_file buf = Except.ok r := by
  unfold from_file
  rw [if_neg (by simp only [GLOBAL_CHECKSUM_ADDR]; omega)]
  exact ⟨_, rfl⟩

/-- A buffer of at most 0x014F bytes is rejected with FormatError. -/
theorem from_file_short (buf : List Nat) (h : buf.length ≤ 0x014F) :
    from_file buf = Except.error RomLoadError.FormatError := by
  unfold from_file
  rw [if_pos (by simp only [GLOBAL_CHECKSUM_ADDR]; omega)]

/-- C1: for every Rom whose rom_data has length greater than 0x014F,
is_header_checksum_valid returns true iff the 16-bit wrapping accumulator
starting at 0, decremented by b + 1 for each byte b of rom_data in the
range 0x0134..0x014D, then truncated to 8 bits, equals the stored
header_checksum byte. -/
theorem header_checksum_valid_iff (r : Rom) (h : 0x014F < r.rom_data.length) :
    is_header_checksum_valid? r = some true ↔
      spec_header_checksum r.rom_data = r.header_checksum := by
  rw [is_header_checksum_valid?_eq r (by simp only [HEADER_CHECKSUM_ADDR]; omega),
    spec_header_checksum_eq]
  simp [beq_iff_eq]

/-- C1 witness: the checksum equivalence instantiated at the concrete Rom
that parses bufZero. -/
theorem header_checksum_valid_iff_witness :
    (0x014F < romZero.rom_data.length) ∧
    (is_header_checksum_valid? romZero = some true ↔
      spec_header_checksum romZero.rom_data = romZero.header_checksum) :=
  ⟨by decide, header_checksum_valid_iff romZero (by decide)⟩

/-- C2 counterexample: a Rom with 336 zero bytes of rom_data but a stored
global_checksum field of 1. The wrapping sum over rom_data is 0 and the
big-endian value assembled from the bytes of rom_data at 0x014E and
0x014F is also 0, so the formula of the claim holds, yet the function
compares against the stored field and returns false. The claim as stated,
over every Rom value whose rom_data is long enough, is therefore false. -/
theorem global_checksum_claim_counterexample :
    (0x014F < romBad.rom_data.length) ∧
    ¬ (is_global_checksum_valid romBad = true ↔
        spec_global_sum romBad.rom_data = spec_global_stored romBad.rom_data) := by
  constructor
  · decide
  · decide

/-- C2 amended: for every Rom whose rom_data has length greater than
0x014F and whose stored global_checksum field equals the big-endian
16-bit value assembled from the bytes of rom_data at 0x014E and 0x014F,
which holds for every Rom produced by from_file, is_global_checksum_valid
returns true iff the 16-bit wrapping sum of every byte of rom_data except
the bytes at indices 0x014E and 0x014F equals that big-endian value. -/
theorem global_checksum_valid_iff (r : Rom) (h : 0x014F < r.rom_data.length)
    (hg : r.global_checksum = spec_global_stored r.rom_data) :
    is_global_checksum_valid r = true ↔
      spec_global_sum r.rom_data = spec_global_stored r.rom_data := by
  unfold is_global_checksum_valid spec_global_sum
  rw [foldl_filter_if]
  simp only [GLOBAL_CHECKSUM_ADDR, hg, beq_iff_eq]

/-- C2 witness: the amended equivalence instantiated at the concrete Rom
that parses bufZero, whose stored field does match its rom_data bytes. -/
theorem global_checksum_valid_iff_witness :
    (0x014F < romZero.rom_data.length) ∧
    (romZero.global_checksum = spec_global_stored romZero.rom_data) ∧
    (is_global_checksum_valid romZero = true ↔
      spec_global_sum romZero.rom_data = spec_global_stored romZero.rom_data) :=
  ⟨by decide, by decide, global_checksum_valid_iff romZero (by decide) (by decide)⟩

/-- C3: every buffer of length at most 0x014F is rejected with the
FormatError value, independently of its contents, and every buffer longer
than 0x014F passes the length check and parses successfully. -/
theorem parse_length_check (buf : List Nat) :
    (buf.length ≤ 0x014F → from_file buf = Except.error RomLoadError.FormatError) ∧
    (0x014F < buf.length → ∃ r, from_file buf = Except.ok r) :=
  ⟨from_file_short buf, from_file_isOk buf⟩

/-- C3 witness: a 10-byte buffer is rejected with FormatError and the
336-byte bufZero parses. -/
theorem parse_length_check_witness :
    ((List.replicate 10 0).length ≤ 0x014F) ∧
    from_file (List.replicate 10 0) = Except.error RomLoadError.FormatError ∧
    (0x014F < bufZero.length) ∧
    (∃ r, from_file bufZero = Except.ok r) :=
  ⟨by decide, (parse_length_check (List.replicate 10 0)).1 (by decide),
   by decide, (parse_length_check bufZero).2 (by decide)⟩

/-- C4: for every buffer longer than 0x014F, every field of the header
that parse produces equals, byte for byte and in order, the byte range of
the buffer at the documented offset and length, and rom_data is the
entire buffer. -/
theorem parse_fields (buf : List Nat) (r : Rom) (h : from_file buf = Except.ok r) :
    r.entry_point = (buf.drop 0x0100).take 4 ∧
    r.nintendo_logo = (buf.drop 0x0104).take 48 ∧
    r.title = (buf.drop 0x0134).take 11 ∧
    r.manufacturer_code = (buf.drop 0x013F).take 4 ∧
    r.cgb_flag = buf.getD 0x0143 0 ∧
    r.new_licensee_code = [buf.getD 0x0144 0, buf.getD 0x0145 0] ∧
    r.sgb_flag = buf.getD 0x0146 0 ∧
    r.cartridge_type = buf.getD 0x0147 0 ∧
    r.rom_size_flag = buf.getD 0x0148 0 ∧
    r.ram_size_flag = buf.getD 0x0149 0 ∧
    r.destination_code = buf.getD 0x014A 0 ∧
    r.old_licensee_code = buf.getD 0x014B 0 ∧
    r.mask_rom_version_number = buf.getD 0x014C 0 ∧
    r.header_checksum = buf.getD 0x014D 0 ∧
    r.rom_data = buf := by
  obtain ⟨h1, h2, h3, h4, h5, h6, h7, h8, h9, h10, h11, h12, h13, h14, _, h16⟩ :=
    from_file_fields buf r h
  exact ⟨h1, h2, h3, h4, h5, h6, h7, h8, h9, h10, h11, h12, h13, h14, h16⟩

/-- C4 witness: the field extraction equalities instantiated at the
concrete parse of bufZero. -/
theorem parse_fields_witness :
    from_file bufZero = Except.ok romZero ∧
    (romZero.entry_point = (bufZero.drop 0x0100).take 4 ∧
     romZero.nintendo_logo = (bufZero.drop 0x0104).take 48 ∧
     romZero.title = (bufZero.drop 0x0134).take 11 ∧
     romZero.manufacturer_code = (bufZero.drop 0x013F).take 4 ∧
     romZero.cgb_flag = bufZero.getD 0x0143 0 ∧
     romZero.new_licensee_code = [bufZero.getD 0x0144 0, bufZero.getD 0x0145 0] ∧
     romZero.sgb_flag = bufZero.getD 0x0146 0 ∧
     romZero.cartridge_type = bufZero.getD 0x0147 0 ∧
     romZero.rom_size_flag = bufZero.getD 0x0148 0 ∧
     romZero.ram_size_flag = bufZero.getD 0x0149 0 ∧
     romZero.destination_code = bufZero.getD 0x014A 0 ∧
     romZero.old_licensee_code = bufZero.getD 0x014B 0 ∧
     romZero.mask_rom_version_number = bufZero.getD 0x014C 0 ∧
     romZero.header_checksum = bufZero.getD 0x014D 0 ∧
     romZero.rom_data = bufZero) :=
  ⟨rfl, parse_fields bufZero romZero rfl⟩

/-- C5: is_logo_valid is true iff all 48 bytes of nintendo_logo equal the
reference bitmap in order, so any header whose logo differs in at least
one byte yields false, and in particular an all-zero logo yields
false. -/
theorem logo_valid_iff (r : Rom) :
    (is_logo_valid r = true ↔ r.nintendo_logo = NINTENDO_LOGO_REFERENCE) ∧
    (r.nintendo_logo = List.replicate 48 0 → is_logo_valid r = false) := by
  constructor
  · simp [is_logo_valid]
  · intro hz
    unfold is_logo_valid
    rw [hz]
    decide

/-- C5 witness: the all-zero logo of romZero is rejected. -/
theorem logo_valid_iff_witness :
    (romZero.nintendo_logo = List.replicate 48 0) ∧ is_logo_valid romZero = false :=
  ⟨rfl, (logo_valid_iff romZero).2 rfl⟩

/-- C6 counterexample: on a manufacturer_code byte range that is not
valid UTF-8, the text-decoding getter aborts the process through the
Rust panic macro instead of returning a recoverable error value; no
TextDecodeError variant exists in the code. -/
theorem text_decode_counterexample :
    get_manufacturer_code_string romFF = StrResult.aborted := by decide

/-- C6 amended: for every byte sequence that is not valid UTF-8, the
text-decoding call aborts the process (a Rust panic) rather than
returning a recoverable error value; the only recoverable error values of
the core are IoError and FormatError. -/
theorem text_decode_aborts (bytes : List Nat) (h : validUtf8 bytes = false) :
    bytes_to_utf8_string bytes = StrResult.aborted := by
  simp [bytes_to_utf8_string, h]

/-- C6 witness: the abort behaviour at a concrete invalid byte
sequence. -/
theorem text_decode_aborts_witness :
    validUtf8 [0xFF, 0x30, 0x30, 0x30] = false ∧
    bytes_to_utf8_string [0xFF, 0x30, 0x30, 0x30] = StrResult.aborted :=
  ⟨by decide, text_decode_aborts [0xFF, 0x30, 0x30, 0x30] (by decide)⟩

/-- C7: round trip. Every buffer of length at least 336 whose byte at
0x014D equals the value of the wrapping-subtraction header checksum
formula over 0x0134..0x014D parses successfully, the resulting header
passes is_header_checksum_valid, and every extracted field equals the
corresponding byte range of the buffer. -/
theorem round_trip (buf : List Nat) (h : 0x014F < buf.length)
    (hc : buf.getD 0x014D 0 = spec_header_checksum buf) :
    ∃ r, from_file buf = Except.ok r ∧
      is_header_checksum_valid? r = some true ∧
      r.entry_point = (buf.drop 0x0100).take 4 ∧
      r.nintendo_logo = (buf.drop 0x0104).take 48 ∧
      r.title = (buf.drop 0x0134).take 11 ∧
      r.manufacturer_code = (buf.drop 0x013F).take 4 ∧
      r.cgb_flag = buf.getD 0x0143 0 ∧
      r.new_licensee_code = [buf.getD 0x0144 0, buf.getD 0x0145 0] ∧
      r.sgb_flag = buf.getD 0x0146 0 ∧
      r.cartridge_type = buf.getD 0x0147 0 ∧
      r.rom_size_flag = buf.getD 0x0148 0 ∧
      r.ram_size_flag = buf.getD 0x0149 0 ∧
      r.destination_code = buf.getD 0x014A 0 ∧
      r.old_licensee_code = buf.getD 0x014B 0 ∧
      r.mask_rom_version_number = buf.getD 0x014C 0 ∧
      r.header_checksum = buf.getD 0x014D 0 ∧
      r.rom_data = buf := by
  obtain ⟨r, hr⟩ := from_file_isOk buf h
  obtain ⟨h1, h2, h3, h4, h5, h6, h7, h8, h9, h10, h11, h12, h13, h14, _, h16⟩ :=
    from_file_fields buf r hr
  refine ⟨r, hr, ?_, h1, h2, h3, h4, h5, h6, h7, h8, h9, h10, h11, h12, h13, h14, h16⟩
  rw [is_header_checksum_valid?_eq r (by rw [h16]; simp only [HEADER_CHECKSUM_ADDR]; omega)]
  rw [h16, h14, hc, spec_header_checksum_eq]
  simp

/-- C7 witness: the round trip instantiated at bufZero, whose checksum
byte 0xE7 is the formula value for its all-zero checksummed range. -/
theorem round_trip_witness :
    (0x014F < bufZero.length) ∧
    (bufZero.getD 0x014D 0 = spec_header_checksum bufZero) ∧
    (∃ r, from_file bufZero = Except.ok r ∧
      is_header_checksum_valid? r = some true ∧
      r.entry_point = (bufZero.drop 0x0100).take 4 ∧
      r.nintendo_logo = (bufZero.drop 0x0104).take 48 ∧
      r.title = (bufZero.drop 0x0134).take 11 ∧
      r.manufacturer_code = (bufZero.drop 0x013F).take 4 ∧
      r.cgb_flag = bufZero.getD 0x0143 0 ∧
      r.new_licensee_code = [bufZero.getD 0x0144 0, bufZero.getD 0x0145 0] ∧
      r.sgb_flag = bufZero.getD 0x0146 0 ∧
      r.cartridge_type = bufZero.getD 0x0147 0 ∧
      r.rom_size_flag = bufZero.getD 0x0148 0 ∧
      r.ram_size_flag = bufZero.getD 0x0149 0 ∧
      r.destination_code = bufZero.getD 0x014A 0 ∧
      r.old_licensee_code = bufZero.getD 0x014B 0 ∧
      r.mask_rom_version_number = bufZero.getD 0x014C 0 ∧
      r.header_checksum = bufZero.getD 0x014D 0 ∧
      r.rom_data = bufZero) :=
  ⟨by decide, by decide, round_trip bufZero (by decide) (by decide)⟩

/-- C8: on every Rom whose rom_data has length greater than 0x014F both
validators are total: the header checksum loop reads no index out of
bounds and yields a boolean, and the global checksum loop, which only
walks the list it is given, yields a boolean. -/
theorem checksum_validators_total (r : Rom) (h : 0x014F < r.rom_data.length) :
    (∃ b, is_header_checksum_valid? r = some b) ∧ (∃ b, is_global_checksum_valid r = b) :=
  ⟨⟨_, is_header_checksum_valid?_eq r (by simp only [HEADER_CHECKSUM_ADDR]; omega)⟩, ⟨_, rfl⟩⟩

/-- C8 witness: totality at the concrete Rom that parses bufZero. -/
theorem checksum_validators_total_witness :
    (0x014F < romZero.rom_data.length) ∧
    ((∃ b, is_header_checksum_valid? romZero = some b) ∧
     (∃ b, is_global_checksum_valid romZero = b)) :=
  ⟨by decide, checksum_validators_total romZero (by decide)⟩

/-- C9: the parser and the two checksum validators are deterministic pure
functions of their input: byte-for-byte equal buffers and equal headers
give equal results, with no dependence on hidden state. -/
theorem parse_and_validators_deterministic (b1 b2 : List Nat) (r1 r2 : Rom)
    (hb : b1 = b2) (hr : r1 = r2) :
    from_file b1 = from_file b2 ∧
    is_header_checksum_valid? r1 = is_header_checksum_valid? r2 ∧
    is_global_checksum_valid r1 = is_global_checksum_valid r2 := by
  subst hb
  subst hr
  exact ⟨rfl, rfl, rfl⟩

/-- C9 witness: determinism at the concrete buffer and Rom. -/
theorem parse_and_validators_deterministic_witness :
    from_file bufZero = from_file bufZero ∧
    is_header_checksum_valid? romZero = is_header_checksum_valid? romZero ∧
    is_global_checksum_valid romZero = is_global_checksum_valid romZero :=
  parse_and_validators_deterministic bufZero bufZero romZero romZero rfl rfl

/-- C10: internal consistency of every successfully constructed Rom: the
stored header_checksum equals rom_data at 0x014D, the stored
global_checksum equals the big-endian assembly of rom_data at 0x014E and
0x014F, and every other extracted field equals the corresponding range of
rom_data, which is the entire input buffer. -/
theorem rom_internal_consistency (buf : List Nat) (r : Rom) (h : from_file buf = Except.ok r) :
    r.rom_data = buf ∧
    r.header_checksum = r.rom_data.getD 0x014D 0 ∧
    r.global_checksum = (r.rom_data.getD 0x014E 0) <<< 8 ||| r.rom_data.getD 0x014F 0 ∧
    r.entry_point = (r.rom_data.drop 0x0100).take 4 ∧
    r.nintendo_logo = (r.rom_data.drop 0x0104).take 48 ∧
    r.title = (r.rom_data.drop 0x0134).take 11 ∧
    r.manufacturer_code = (r.rom_data.drop 0x013F).take 4 ∧
    r.cgb_flag = r.rom_data.getD 0x0143 0 ∧
    r.new_licensee_code = [r.rom_data.getD 0x0144 0, r.rom_data.getD 0x0145 0] ∧
    r.sgb_flag = r.rom_data.getD 0x0146 0 ∧
    r.cartridge_type = r.rom_data.getD 0x0147 0 ∧
    r.rom_size_flag = r.rom_data.getD 0x0148 0 ∧
    r.ram_size_flag = r.rom_data.getD 0x0149 0 ∧
    r.destination_code = r.rom_data.getD 0x014A 0 ∧
    r.old_licensee_code = r.rom_data.getD 0x014B 0 ∧
    r.mask_rom_version_number = r.rom_data.getD 0x014C 0 := by
  obtain ⟨h1, h2, h3, h4, h5, h6, h7, h8, h9, h10, h11, h12, h13, h14, h15, h16⟩ :=
    from_file_fields buf r h
  rw [h16]
  exact ⟨rfl, h14, h15, h1, h2, h3, h4, h5, h6, h7, h8, h9, h10, h11, h12, h13⟩

/-- C10 witness: the stored-field invariant at the concrete parse of
bufZero. -/
theorem rom_internal_consistency_witness :
    from_file bufZero = Except.ok romZero ∧
    (romZero.rom_data = bufZero ∧
     romZero.header_checksum = romZero.rom_data.getD 0x014D 0 ∧
     romZero.global_checksum = (romZero.rom_data.getD 0x014E 0) <<< 8 ||| romZero.rom_data.getD 0x014F 0 ∧
     romZero.entry_point = (romZero.rom_data.drop 0x0100).take 4 ∧
     romZero.nintendo_logo = (romZero.rom_data.drop 0x0104).take 48 ∧
     romZero.title = (romZero.rom_data.drop 0x0134).take 11 ∧
     romZero.manufacturer_code = (romZero.rom_data.drop 0x013F).take 4 ∧
     romZero.cgb_flag = romZero.rom_data.getD 0x0143 0 ∧
     romZero.new_licensee_code = [romZero.rom_data.getD 0x0144 0, romZero.rom_data.getD 0x0145 0] ∧
     romZero.sgb_flag = romZero.rom_data.getD 0x0146 0 ∧
     romZero.cartridge_type = romZero.rom_data.getD 0x0147 0 ∧
     romZero.rom_size_flag = romZero.rom_data.getD 0x0148 0 ∧
     romZero.ram_size_flag = romZero.rom_data.getD 0x0149 0 ∧
     romZero.destination_code = romZero.rom_data.getD 0x014A 0 ∧
     romZero.old_licensee_code = romZero.rom_data.getD 0x014B 0 ∧
     romZero.mask_rom_version_number = romZero.rom_data.getD 0x014C 0) :=
  ⟨rfl, rom_internal_consistency bufZero romZero rfl⟩

end RomInfo
